import Mathlib

/-!
Verification of the core simulation engine of the Double-Pendulum-NN
repository: the state containers, derivative evaluators and fixed-step
Euler integrators of `models/double_pendulum.py` and
`models/double_pendulum_on_cart.py`.

The numeric model: the Python code computes with IEEE doubles; we embed it
over exact rationals, with the transcendental functions (`np.sin`,
`np.cos`) and the degree-to-radian factor abstracted into a `NumEnv`
parameter, so every definition stays computable and the algebraic and
structural behaviour of the code is captured exactly.
-/

/-- Abstract numeric environment: the trigonometric primitives and the
constant pi used by `np.radians`. The code never relies on analytic
properties of sin/cos, so they are opaque function parameters here. -/
structure NumEnv where
  sin : ℚ → ℚ
  cos : ℚ → ℚ
  pi : ℚ

/-- `np.radians x = x * (pi / 180)`. -/
def NumEnv.radians (e : NumEnv) (x : ℚ) : ℚ := x * e.pi / 180

/-- Python `int()` applied to a rational: truncation toward zero. -/
def pyInt (q : ℚ) : ℤ := if q < 0 then ⌈q⌉ else ⌊q⌋

/-- Rounding to the nearest integer (the spec's `round`); used only to
state the spec's claims, never to model the code. -/
def specRound (q : ℚ) : ℤ := ⌊q + 1/2⌋

/-- Number of elements of `np.arange(0, t_stop, dt)`:
`max(ceil((t_stop - 0)/dt), 0)`. -/
def arangeLen (t_stop dt : ℚ) : ℕ := (⌈t_stop / dt⌉).toNat

/-- The elements of `np.arange(0, t_stop, dt)`: `0, dt, 2·dt, …`. -/
def arange (t_stop dt : ℚ) : List ℚ :=
  (List.range (arangeLen t_stop dt)).map (fun (i : ℕ) => (i : ℚ) * dt)

/-- NumPy 1-d array indexing with a (possibly negative) integer index:
a negative index wraps around once; anything still out of `[0, len)`
raises `IndexError`, modelled as `none`. -/
def npGet (xs : List ℚ) (i : ℤ) : Option ℚ :=
  let j : ℤ := if i < 0 then i + xs.length else i
  if 0 ≤ j then xs.get? j.toNat else none

/-- Runs a fallible row computation over a list of indices, collecting
the rows in order; the first fault aborts the whole run (an uncaught
Python exception). -/
def optSeq {β : Type} (f : ℕ → Option β) : List ℕ → Option (List β)
  | [] => some []
  | a :: xs => (f a).bind fun b => (optSeq f xs).map fun ys => b :: ys

/-- 4-component state vector `(th1, w1, th2, w2)` of the plain double
pendulum, all in radians / radians-per-second. -/
structure State4 where
  th1 : ℚ
  w1 : ℚ
  th2 : ℚ
  w2 : ℚ
deriving DecidableEq, Repr

/-- Componentwise `a + dt • b`: one explicit Euler update. -/
def State4.euler (a : State4) (dt : ℚ) (b : State4) : State4 :=
  ⟨a.th1 + b.th1 * dt, a.w1 + b.w1 * dt, a.th2 + b.th2 * dt, a.w2 + b.w2 * dt⟩

/-- The `DoublePendulum` container of `models/double_pendulum.py`:
physical parameters, raw initial conditions in degrees, time parameters,
and the stored trajectory `y` (`None` until `solve` ran). The derived
fields `state` and `t` of the Python object are recomputed functions
below, which `__init__` and every setter keep in sync. -/
structure DoublePendulum where
  L1 : ℚ
  L2 : ℚ
  M1 : ℚ
  M2 : ℚ
  G : ℚ
  th1 : ℚ
  w1 : ℚ
  th2 : ℚ
  w2 : ℚ
  t_stop : ℚ
  dt : ℚ
  y : Option (List State4)
deriving DecidableEq, Repr

namespace DoublePendulum

/-- `self.state = np.radians([th1, w1, th2, w2])`. -/
def state (e : NumEnv) (p : DoublePendulum) : State4 :=
  ⟨e.radians p.th1, e.radians p.w1, e.radians p.th2, e.radians p.w2⟩

/-- Length of the time grid `self.t = np.arange(0, t_stop, dt)`. -/
def N (p : DoublePendulum) : ℕ := arangeLen p.t_stop p.dt

/-- `DoublePendulum._derivs`, transcribed line by line from the source. -/
def derivs (e : NumEnv) (p : DoublePendulum) (s : State4) : State4 :=
  let delta := s.th2 - s.th1
  let den1 := (p.M1 + p.M2) * p.L1 - p.M2 * p.L1 * e.cos delta ^ 2
  let dydx0 := s.w1
  let dydx1 := (p.M2 * p.L1 * s.w1 ^ 2 * e.sin delta * e.cos delta
      + p.M2 * p.G * e.sin s.th2 * e.cos delta
      + p.M2 * p.L2 * s.w2 ^ 2 * e.sin delta
      - (p.M1 + p.M2) * p.G * e.sin s.th1) / den1
  let den2 := (p.L2 / p.L1) * den1
  let dydx2 := s.w2
  let dydx3 := (-(p.M2 * p.L2 * s.w2 ^ 2 * e.sin delta * e.cos delta)
      + (p.M1 + p.M2) * p.G * e.sin s.th1 * e.cos delta
      - (p.M1 + p.M2) * p.L1 * s.w1 ^ 2 * e.sin delta
      - (p.M1 + p.M2) * p.G * e.sin s.th2) / den2
  ⟨dydx0, dydx1, dydx2, dydx3⟩

/-- Row `i` of the trajectory computed by `solve`'s loop:
`y[0] = state`, `y[i] = y[i-1] + _derivs(y[i-1]) * dt`. -/
def trajAux (e : NumEnv) (p : DoublePendulum) : ℕ → State4
  | 0 => p.state e
  | i + 1 => (p.trajAux e i).euler p.dt (p.derivs e (p.trajAux e i))

/-- The full `len(self.t)`-row trajectory array built by `solve`. -/
def solveTraj (e : NumEnv) (p : DoublePendulum) : List State4 :=
  (List.range p.N).map (p.trajAux e)

/-- `DoublePendulum.solve`: computes the trajectory and stores it in
`self.y`; every other field is untouched. -/
def solve (e : NumEnv) (p : DoublePendulum) : DoublePendulum :=
  { p with y := some (p.solveTraj e) }

end DoublePendulum

/-- 6-component state vector `(th1, w1, th2, w2, x, vx)` of the double
pendulum on a cart. -/
structure State6 where
  th1 : ℚ
  w1 : ℚ
  th2 : ℚ
  w2 : ℚ
  x : ℚ
  vx : ℚ
deriving DecidableEq, Repr

/-- Componentwise `a + dt • b`: one explicit Euler update on the
6-component state. -/
def State6.euler (a : State6) (dt : ℚ) (b : State6) : State6 :=
  ⟨a.th1 + b.th1 * dt, a.w1 + b.w1 * dt, a.th2 + b.th2 * dt,
   a.w2 + b.w2 * dt, a.x + b.x * dt, a.vx + b.vx * dt⟩

/-- The `DoublePendulumOnCart` container of
`models/double_pendulum_on_cart.py`. As for the plain pendulum, the
derived `state` and `t` fields are recomputed functions; the
control-force sequence and the stored trajectory are genuine fields. -/
structure DoublePendulumOnCart where
  L1 : ℚ
  L2 : ℚ
  M1 : ℚ
  M2 : ℚ
  Mc : ℚ
  G : ℚ
  x_min : ℚ
  x_max : ℚ
  f_min : ℚ
  f_max : ℚ
  th1 : ℚ
  w1 : ℚ
  th2 : ℚ
  w2 : ℚ
  x : ℚ
  vx : ℚ
  t_stop : ℚ
  dt : ℚ
  control_force : List ℚ
  y : Option (List State6)
deriving DecidableEq, Repr

namespace DoublePendulumOnCart

/-- `self.state = np.append(np.radians([th1, w1, th2, w2]), [x, vx])`:
angles and angular velocities converted, cart position and velocity
appended unconverted. -/
def state (e : NumEnv) (p : DoublePendulumOnCart) : State6 :=
  ⟨e.radians p.th1, e.radians p.w1, e.radians p.th2, e.radians p.w2, p.x, p.vx⟩

/-- Length of the time grid `self.t = np.arange(0, t_stop, dt)`. -/
def N (p : DoublePendulumOnCart) : ℕ := arangeLen p.t_stop p.dt

/-- `__init__`: builds the container; the default control force is
`np.zeros(int(t_stop*1/dt))` and no trajectory is stored yet. -/
def init (L1 L2 M1 M2 Mc G x_min x_max f_min f_max th1 w1 th2 w2 x vx t_stop dt : ℚ) :
    DoublePendulumOnCart :=
  ⟨L1, L2, M1, M2, Mc, G, x_min, x_max, f_min, f_max, th1, w1, th2, w2, x, vx,
   t_stop, dt, List.replicate (pyInt (t_stop * 1 / dt)).toNat 0, none⟩

/-- `set_time_parameters`: replaces `t_stop`, `dt` and rebuilds the time
grid; the control-force sequence is not touched. -/
def set_time_parameters (p : DoublePendulumOnCart) (t_stop dt : ℚ) :
    DoublePendulumOnCart :=
  { p with t_stop := t_stop, dt := dt }

/-- `set_control_force`: installs a caller-supplied force sequence. -/
def set_control_force (p : DoublePendulumOnCart) (cf : List ℚ) :
    DoublePendulumOnCart :=
  { p with control_force := cf }

/-- `set_random_control_force`: draws `int(t_stop)` values from the
process RNG (modelled as the abstract stream `draws`), repeats each
`int(1/dt)` times (`np.repeat`), and installs the result. -/
def set_random_control_force (p : DoublePendulumOnCart) (f_min f_max : ℚ)
    (draws : ℕ → ℚ) : DoublePendulumOnCart :=
  let cf := ((List.range (pyInt p.t_stop).toNat).map draws).flatMap
    (fun v => List.replicate (pyInt (1 / p.dt)).toNat v)
  { p with f_min := f_min, f_max := f_max, control_force := cf }

/-- The pure part of `DoublePendulumOnCart._derivs` after the control
force `F` has been looked up, transcribed line by line from the source. -/
def derivsF (e : NumEnv) (p : DoublePendulumOnCart) (s : State6) (F : ℚ) :
    State6 :=
  let delta := s.th2 - s.th1
  let cos_delta := e.cos delta
  let sin_delta := e.sin delta
  let M := p.M1 + p.M2 + p.Mc
  let m1L1 := p.M1 * p.L1
  let m2L2 := p.M2 * p.L2
  let dydx0 := s.w1
  let dydx2 := s.w2
  let dydx4 := s.vx
  let den1 := M * p.L1 - p.M1 * p.L1 * e.cos s.th1 ^ 2 - p.M2 * p.L1 * cos_delta ^ 2
  let den2 := p.L2 * den1 / p.L1
  let dydx1 := (p.M1 * p.L1 * s.w1 ^ 2 * e.sin s.th1
      + p.M2 * p.L2 * s.w2 ^ 2 * sin_delta * cos_delta
      + p.M2 * p.G * e.sin s.th2 * cos_delta
      + (F - p.Mc * s.vx) * e.cos s.th1
      - M * p.G * e.sin s.th1) / den1
  let dydx3 := (-(p.M2 * p.L2 * s.w2 ^ 2 * sin_delta * cos_delta)
      - (M * p.G * e.sin s.th2)
      + p.L1 * dydx1 * cos_delta) / den2
  let dydx5 := (F + m1L1 * (dydx1 * e.cos s.th1 - s.w1 ^ 2 * e.sin s.th1)
      + m2L2 * (dydx3 * cos_delta - s.w2 ^ 2 * sin_delta)) / M
  ⟨dydx0, dydx1, dydx2, dydx3, dydx4, dydx5⟩

/-- `DoublePendulumOnCart._derivs`: the control-force lookup
`self.control_force[int(t*1/self.dt)]` runs first and can raise
`IndexError`, hence the `Option` result (`none` is the fault at the point
of lookup); on success the rest of the body is the pure `derivsF`. -/
def derivs (e : NumEnv) (p : DoublePendulumOnCart) (s : State6) (t : ℚ) :
    Option State6 :=
  (npGet p.control_force (pyInt (t * 1 / p.dt))).map (derivsF e p s)

/-- The post-step clamp of `solve`: `if y[i,4] < x_min` set `x := x_min`,
`vx := 0`; `elif y[i,4] > x_max` set `x := x_max`, `vx := 0`. -/
def clamp (p : DoublePendulumOnCart) (s : State6) : State6 :=
  if s.x < p.x_min then { s with x := p.x_min, vx := 0 }
  else if s.x > p.x_max then { s with x := p.x_max, vx := 0 }
  else s

/-- Row `i` of the trajectory computed by `solve`'s loop, as far as the
force lookups succeed: `y[0] = state`; `y[i]` is the clamped Euler update
of `y[i-1]` using `_derivs(y[i-1], t[i-1])` with `t[i-1] = (i-1)·dt`. -/
def trajAux (e : NumEnv) (p : DoublePendulumOnCart) : ℕ → Option State6
  | 0 => some (p.state e)
  | i + 1 => (p.trajAux e i).bind fun prev =>
      (p.derivs e prev ((i : ℚ) * p.dt)).map fun d =>
        p.clamp (prev.euler p.dt d)

/-- The result of running `solve`'s loop: the full `len(self.t)`-row
array when every step succeeds, `none` when some force lookup raised. -/
def solveRun (e : NumEnv) (p : DoublePendulumOnCart) : Option (List State6) :=
  optSeq (p.trajAux e) (List.range p.N)

/-- `DoublePendulumOnCart.solve`: on success the freshly computed
trajectory replaces `self.y`; a raised `IndexError` propagates before the
assignment `self.y = y` runs, leaving every field as it was. -/
def solve (e : NumEnv) (p : DoublePendulumOnCart) : DoublePendulumOnCart :=
  match p.solveRun e with
  | some tr => { p with y := some tr }
  | none => p

end DoublePendulumOnCart

/-! Spec-side definitions, written from the specification's words, to be
compared with the source-side definitions above. -/

/-- The pendulum derivative evaluator exactly as §4.1 of the
specification writes it: δ, den1, den2 and the four component formulas. -/
def derivsSpec (e : NumEnv) (L1 L2 M1 M2 G : ℚ) (s : State4) : State4 :=
  let δ := s.th2 - s.th1
  let den1 := (M1 + M2) * L1 - M2 * L1 * e.cos δ ^ 2
  let den2 := (L2 / L1) * den1
  ⟨s.w1,
   (M2 * L1 * s.w1 ^ 2 * e.sin δ * e.cos δ + M2 * G * e.sin s.th2 * e.cos δ
     + M2 * L2 * s.w2 ^ 2 * e.sin δ - (M1 + M2) * G * e.sin s.th1) / den1,
   s.w2,
   (-(M2 * L2 * s.w2 ^ 2 * e.sin δ * e.cos δ)
     + (M1 + M2) * G * e.sin s.th1 * e.cos δ
     - (M1 + M2) * L1 * s.w1 ^ 2 * e.sin δ
     - (M1 + M2) * G * e.sin s.th2) / den2⟩

/-- The cart derivative evaluator as the specification's §4.3 describes
it: identical to the source's, except that the control force is looked up
at index `round(t/dt)` as the spec claims, instead of the source's
truncating `int(t*1/dt)`. -/
def derivsRoundSpec (e : NumEnv) (p : DoublePendulumOnCart) (s : State6) (t : ℚ) :
    Option State6 :=
  (npGet p.control_force (specRound (t / p.dt))).map
    (DoublePendulumOnCart.derivsF e p s)

/-! Concrete fixtures used by counterexamples and witnesses. -/

/-- A concrete numeric environment for evaluating the model on explicit
inputs: `sin ≡ 0`, `cos ≡ 1` (exact at angle 0) and a rational stand-in
for pi. -/
def env0 : NumEnv := ⟨fun _ => 0, fun _ => 1, 3⟩

/-- Zero 4-state, the `getD` default. -/
def z4 : State4 := ⟨0, 0, 0, 0⟩

/-- Zero 6-state, the `getD` default. -/
def z6 : State6 := ⟨0, 0, 0, 0, 0, 0⟩

/-- A pendulum with `t_stop = 5`, `dt = 2`: the time-grid length 3
exceeds `floor(t_stop/dt) = 2`. -/
def pendRagged : DoublePendulum :=
  ⟨1, 1, 1, 1, 49/5, 0, 0, 0, 0, 5, 2, none⟩

/-- A small pendulum run (`t_stop = 3/10`, `dt = 1/10`, so 3 rows) used
to instantiate universally quantified theorems. -/
def pendSmall : DoublePendulum :=
  ⟨1, 1, 1, 1, 49/5, 0, 0, 0, 0, 3/10, 1/10, none⟩

/-- The §8 clamp scenario: cart with `x_min = -1/10`, `x_max = 1/10`,
unit masses, all-zero initial state, `t_stop = 1/2`, `dt = 1/10` (5 rows)
and a constant control force 10, large enough to drive `x` past `x_max`
within the window. -/
def cartClamp : DoublePendulumOnCart :=
  (DoublePendulumOnCart.init 1 1 1 1 1 (49/5) (-1/10) (1/10) (-10) 10
    0 0 0 0 0 0 (1/2) (1/10)).set_control_force [10, 10, 10, 10, 10]

/-- A cart with `dt = 1` and force sequence `[10, 20, 30]`, used to
separate the truncating force lookup from the spec's rounding one at
`t = 8/5`. -/
def cartLookup : DoublePendulumOnCart :=
  (DoublePendulumOnCart.init 1 1 1 1 1 (49/5) (-1) 1 (-10) 10
    0 0 0 0 0 0 3 1).set_control_force [10, 20, 30]

/-- A cart constructed with `t_stop = 5`, `dt = 2`: the default force
sequence has `int(5/2) = 2` entries but the time grid has 3. -/
def cartRagged : DoublePendulumOnCart :=
  DoublePendulumOnCart.init 1 1 1 1 1 (49/5) (-1) 1 (-10) 10
    0 0 0 0 0 0 5 2

/-- A cart whose force sequence was set to be empty, so the very first
integration step's lookup faults: `t_stop = 1/5`, `dt = 1/10` (2 rows). -/
def cartFault : DoublePendulumOnCart :=
  (DoublePendulumOnCart.init 1 1 1 1 1 (49/5) (-1) 1 (-10) 10
    0 0 0 0 0 0 (1/5) (1/10)).set_control_force []

/-- A cart with `t_stop = 3`, `dt = 3/5`: `int(1/dt) = 1` but
`round(1/dt) = 2`, separating the source's truncating replication count
from the spec's rounding one. -/
def cartStair : DoublePendulumOnCart :=
  DoublePendulumOnCart.init 1 1 1 1 1 (49/5) (-1) 1 (-10) 10
    0 0 0 0 0 0 3 (3/5)

/-- A cart with `t_stop = 3`, `dt = 1/100`: the staircase force has
3 blocks of 100 equal samples. -/
def cartStair3 : DoublePendulumOnCart :=
  DoublePendulumOnCart.init 1 1 1 1 1 (49/5) (-1) 1 (-10) 10
    0 0 0 0 0 0 3 (1/100)

/-- A tiny always-succeeding cart run (`t_stop = 1/5`, `dt = 1/10`,
2 rows, default zero force of length 2) for witnesses. -/
def cartSmall : DoublePendulumOnCart :=
  DoublePendulumOnCart.init 1 1 1 1 1 (49/5) (-1) 1 (-10) 10
    0 0 0 0 0 0 (1/5) (1/10)




/-! Helper lemmas shared by several claims. -/

/-- A successful `optSeq` run has one row per index. -/
theorem optSeq_some_length {β : Type} (f : ℕ → Option β) :
    ∀ {xs : List ℕ} {ys : List β}, optSeq f xs = some ys → ys.length = xs.length := by
  intro xs
  induction xs with
  | nil => intro ys h; simp [optSeq] at h; simp [← h]
  | cons a xs ih =>
    intro ys h
    simp only [optSeq] at h
    cases hfa : f a with
    | none => simp [hfa] at h
    | some b =>
      cases hm : optSeq f xs with
      | none => simp [hfa, hm] at h
      | some zs =>
        simp [hfa, hm] at h
        simp [← h, ih hm]

/-- Each row of a successful `optSeq` run is the value the row
computation produced at its index. -/
theorem optSeq_some_getD {β : Type} (f : ℕ → Option β) (db : β) :
    ∀ {xs : List ℕ} {ys : List β}, optSeq f xs = some ys →
      ∀ i, i < xs.length → f (xs.getD i 0) = some (ys.getD i db) := by
  intro xs
  induction xs with
  | nil => intro ys h i hi; simp at hi
  | cons a xs ih =>
    intro ys h i hi
    simp only [optSeq] at h
    cases hfa : f a with
    | none => simp [hfa] at h
    | some b =>
      cases hm : optSeq f xs with
      | none => simp [hfa, hm] at h
      | some zs =>
        simp [hfa, hm] at h
        cases i with
        | zero => simp [← h, hfa]
        | succ j =>
          rw [← h, List.getD_cons_succ, List.getD_cons_succ]
          exact ih hm j (by simpa using hi)

/-- `getD` through a mapped range. -/
theorem getD_map_range {β : Type} (db : β) (n i : ℕ) (f : ℕ → β) (h : i < n) :
    ((List.range n).map f).getD i db = f i := by
  simp [List.getD_eq_getElem?_getD, List.getElem?_map, List.getElem?_range, h]

/-- `getD` on a range. -/
theorem getD_range (n i : ℕ) (h : i < n) : (List.range n).getD i 0 = i := by
  simp [List.getD_eq_getElem?_getD, List.getElem?_range, h]

/-- Repeating each element of a list `r` times multiplies the length by
`r` (the length law of `np.repeat`). -/
theorem length_flatMap_replicate (r : ℕ) (xs : List ℚ) :
    (xs.flatMap (fun v => List.replicate r v)).length = xs.length * r := by
  induction xs with
  | nil => simp
  | cons a xs ih => simp [ih]; ring

/-- `pyInt` of a natural number is that number. -/
theorem pyInt_natCast (n : ℕ) : pyInt (n : ℚ) = n := by
  simp [pyInt]

/-- `specRound` of a natural number is that number. -/
theorem specRound_natCast (n : ℕ) : specRound (n : ℚ) = n := by
  rw [specRound, show ((n : ℚ) + 1/2) = (1/2 : ℚ) + (n : ℤ) by push_cast; ring,
    Int.floor_add_int]
  norm_num

/-- The rows of a successful cart `solveRun` are exactly the values of
`trajAux`. -/
theorem DoublePendulumOnCart.solveRun_getD (e : NumEnv) (p : DoublePendulumOnCart)
    {tr : List State6} (h : p.solveRun e = some tr) :
    tr.length = p.N ∧ ∀ i, i < p.N → p.trajAux e i = some (tr.getD i z6) := by
  constructor
  · simpa using optSeq_some_length (p.trajAux e) h
  · intro i hi
    have := optSeq_some_getD (p.trajAux e) z6 h i (by simpa using hi)
    rwa [getD_range _ _ hi] at this

/-- Evaluates `arangeLen` on concrete values: the grid has `n` entries
when `n - 1 < t_stop/dt ≤ n`. -/
theorem arangeLen_eq (t_stop dt : ℚ) (n : ℕ)
    (h1 : (n : ℚ) - 1 < t_stop / dt) (h2 : t_stop / dt ≤ n) :
    arangeLen t_stop dt = n := by
  have hc : ⌈t_stop / dt⌉ = (n : ℤ) := by
    rw [Int.ceil_eq_iff]
    constructor
    · exact_mod_cast h1
    · exact_mod_cast h2
  rw [arangeLen, hc, Int.toNat_natCast]

/-- Evaluates `pyInt` on concrete nonnegative values. -/
theorem pyInt_eq_nat (q : ℚ) (n : ℕ) (h1 : (n : ℚ) ≤ q) (h2 : q < n + 1) :
    pyInt q = n := by
  have h0 : ¬ q < 0 := by
    have : (0:ℚ) ≤ (n:ℚ) := by positivity
    linarith
  rw [pyInt, if_neg h0, Int.floor_eq_iff]
  constructor
  · exact_mod_cast h1
  · exact_mod_cast h2

/-- Unfolding lemma: row 0 of the cart loop. -/
theorem trajAux6_zero (e : NumEnv) (p : DoublePendulumOnCart) :
    p.trajAux e 0 = some (p.state e) := rfl

/-- Unfolding lemma: one cart loop iteration. -/
theorem trajAux6_succ (e : NumEnv) (p : DoublePendulumOnCart) (i : ℕ) :
    p.trajAux e (i + 1) = (p.trajAux e i).bind fun prev =>
      (p.derivs e prev ((i : ℚ) * p.dt)).map fun d =>
        p.clamp (prev.euler p.dt d) := rfl

/-- Unfolding lemma: row 0 of the pendulum loop. -/
theorem trajAux4_zero (e : NumEnv) (p : DoublePendulum) :
    p.trajAux e 0 = p.state e := rfl

/-- Unfolding lemma: one pendulum loop iteration. -/
theorem trajAux4_succ (e : NumEnv) (p : DoublePendulum) (i : ℕ) :
    p.trajAux e (i + 1)
      = (p.trajAux e i).euler p.dt (p.derivs e (p.trajAux e i)) := rfl

/-- `npGet` at a nonnegative index is plain list lookup. -/
theorem npGet_nat (xs : List ℚ) (n : ℕ) : npGet xs (n : ℤ) = xs.get? n := by
  have h : ¬ ((n : ℤ) < 0) := by omega
  simp only [npGet, if_neg h, if_pos (by omega : (0:ℤ) ≤ (n:ℤ)), Int.toNat_natCast]

/-- Concrete value: the small cart's time grid has 2 entries. -/
theorem cartSmall_N : cartSmall.N = 2 := by
  rw [DoublePendulumOnCart.N, show cartSmall.t_stop = 1/5 from rfl,
    show cartSmall.dt = 1/10 from rfl]
  exact arangeLen_eq _ _ 2 (by norm_num) (by norm_num)

/-- Concrete value: the small cart's default force sequence is two
zeros. -/
theorem cartSmall_cf : cartSmall.control_force = [0, 0] := by
  show List.replicate (pyInt ((1:ℚ)/5 * 1 / (1/10))).toNat 0 = [0, 0]
  rw [pyInt_eq_nat _ 2 (by norm_num) (by norm_num), Int.toNat_natCast]
  rfl

/-- Concrete value: the small cart's initial state is zero. -/
theorem cartSmall_state : cartSmall.state env0 = z6 := by
  norm_num [DoublePendulumOnCart.state, NumEnv.radians, env0, z6, cartSmall,
    DoublePendulumOnCart.init]

/-- Concrete value: the small cart's derivative at the zero state and
`t = 0` is zero. -/
theorem cartSmall_d0 :
    cartSmall.derivs env0 z6 (((0:ℕ) : ℚ) * cartSmall.dt) = some z6 := by
  have hidx : pyInt (((0:ℕ) : ℚ) * cartSmall.dt * 1 / cartSmall.dt) = ((0:ℕ) : ℤ) := by
    rw [show cartSmall.dt = 1/10 from rfl,
      show (((0:ℕ):ℚ) * (1/10) * 1 / (1/10)) = ((0:ℕ):ℚ) from by push_cast; ring]
    exact pyInt_natCast 0
  have hlook : npGet cartSmall.control_force
      (pyInt (((0:ℕ) : ℚ) * cartSmall.dt * 1 / cartSmall.dt)) = some 0 := by
    rw [hidx, cartSmall_cf, npGet_nat]
    rfl
  rw [DoublePendulumOnCart.derivs, hlook, Option.map_some']
  refine congrArg some ?_
  norm_num [DoublePendulumOnCart.derivsF, env0, z6,
    show cartSmall.M1 = 1 from rfl, show cartSmall.M2 = 1 from rfl,
    show cartSmall.Mc = 1 from rfl, show cartSmall.L1 = 1 from rfl,
    show cartSmall.L2 = 1 from rfl, show cartSmall.G = 49/5 from rfl]

/-- Concrete value: row 1 of the small cart run is zero. -/
theorem cartSmall_row1 : cartSmall.trajAux env0 1 = some z6 := by
  rw [show (1:ℕ) = 0 + 1 from rfl, trajAux6_succ, trajAux6_zero, cartSmall_state]
  simp only [Option.some_bind, cartSmall_d0, Option.map_some]
  norm_num [DoublePendulumOnCart.clamp, State6.euler, z6, cartSmall,
    DoublePendulumOnCart.init]

/-- Concrete value: the small cart run succeeds with two zero rows. -/
theorem cartSmall_run : cartSmall.solveRun env0 = some [z6, z6] := by
  rw [DoublePendulumOnCart.solveRun, cartSmall_N,
    show List.range 2 = [0, 1] from rfl]
  simp [optSeq, trajAux6_zero, cartSmall_state, cartSmall_row1]

/-- Concrete value: the 3-row pendulum fixture's grid length. -/
theorem pendSmall_N : pendSmall.N = 3 := by
  rw [DoublePendulum.N, show pendSmall.t_stop = 3/10 from rfl,
    show pendSmall.dt = 1/10 from rfl]
  exact arangeLen_eq _ _ 3 (by norm_num) (by norm_num)

/-- Concrete value: the ragged pendulum fixture's grid length:
`np.arange(0, 5, 2)` has 3 entries. -/
theorem pendRagged_N : pendRagged.N = 3 := by
  rw [DoublePendulum.N, show pendRagged.t_stop = 5 from rfl,
    show pendRagged.dt = 2 from rfl]
  exact arangeLen_eq _ _ 3 (by norm_num) (by norm_num)

/-! Claim C1 -/

/-- C1 counterexample: a pendulum constructed with the valid parameters
`t_stop = 5 > 0`, `dt = 2 > 0` stores a 3-row trajectory after `solve`,
but `floor(t_stop/dt) = 2`: the claimed row count `N = floor(t_stop/dt)`
is wrong (the grid `np.arange(0, 5, 2) = [0, 2, 4]` has
`ceil(t_stop/dt)` entries). -/
theorem solve_row_count_C1_counterexample :
    0 < pendRagged.t_stop ∧ 0 < pendRagged.dt ∧
    (pendRagged.solve env0).y = some (pendRagged.solveTraj env0) ∧
    (pendRagged.solveTraj env0).length = 3 ∧
    (⌊pendRagged.t_stop / pendRagged.dt⌋).toNat = 2 ∧ (3 : ℕ) ≠ 2 := by
  refine ⟨?_, ?_, rfl, ?_, ?_, by norm_num⟩
  · rw [show pendRagged.t_stop = 5 from rfl]; norm_num
  · rw [show pendRagged.dt = 2 from rfl]; norm_num
  · rw [DoublePendulum.solveTraj, List.length_map, List.length_range, pendRagged_N]
  · rw [show pendRagged.t_stop = 5 from rfl, show pendRagged.dt = 2 from rfl,
      show ⌊(5:ℚ)/2⌋ = 2 from by norm_num]
    rfl

/-- C1 (amended): for every valid parameter set (`t_stop > 0`,
`dt > 0`), `solve` on the pendulum stores a trajectory of exactly
`N = ceil(t_stop/dt)` rows whose row 0 is the initial conditions
converted to radians; and `solve` on the cart, whenever its integration
loop completes (`solveRun` returns rows), stores exactly
`N = ceil(t_stop/dt)` rows whose row 0 is the converted initial
conditions with cart position `x` and velocity `vx` appended
unconverted. -/
theorem solve_row_count_C1 (e : NumEnv) (p : DoublePendulum)
    (q : DoublePendulumOnCart) (tq : List State6)
    (hp1 : 0 < p.t_stop) (hp2 : 0 < p.dt) (hq : q.solveRun e = some tq)
    (hq1 : 0 < q.t_stop) (hq2 : 0 < q.dt) :
    (p.solve e).y = some (p.solveTraj e) ∧
    (p.solveTraj e).length = (⌈p.t_stop / p.dt⌉).toNat ∧
    (p.solveTraj e).getD 0 z4 = p.state e ∧
    (q.solve e).y = some tq ∧
    tq.length = (⌈q.t_stop / q.dt⌉).toNat ∧
    tq.getD 0 z6 = q.state e := by
  have hNp : 0 < p.N := by
    have h0 : (0:ℚ) < p.t_stop / p.dt := div_pos hp1 hp2
    have h1 := Int.ceil_pos.mpr h0
    simp only [DoublePendulum.N, arangeLen]
    omega
  have hNq : 0 < q.N := by
    have h0 : (0:ℚ) < q.t_stop / q.dt := div_pos hq1 hq2
    have h1 := Int.ceil_pos.mpr h0
    simp only [DoublePendulumOnCart.N, arangeLen]
    omega
  obtain ⟨hlen, hrow⟩ := q.solveRun_getD e hq
  refine ⟨rfl, ?_, ?_, ?_, ?_, ?_⟩
  · rw [DoublePendulum.solveTraj, List.length_map, List.length_range]; rfl
  · rw [DoublePendulum.solveTraj, getD_map_range z4 _ _ _ hNp]
    rfl
  · simp [DoublePendulumOnCart.solve, hq]
  · rw [hlen]; rfl
  · have h0 := hrow 0 hNq
    have h1 : some (q.state e) = some (tq.getD 0 z6) := h0
    exact (Option.some_injective _ h1).symm

/-- C1 witness: the amended statement instantiated on a 3-row pendulum
run and a successful 2-row cart run. -/
theorem solve_row_count_C1_witness :
    0 < pendSmall.t_stop ∧ 0 < pendSmall.dt ∧
    cartSmall.solveRun env0 = some [z6, z6] ∧
    0 < cartSmall.t_stop ∧ 0 < cartSmall.dt ∧
    ((pendSmall.solve env0).y = some (pendSmall.solveTraj env0) ∧
     (pendSmall.solveTraj env0).length = (⌈pendSmall.t_stop / pendSmall.dt⌉).toNat ∧
     (pendSmall.solveTraj env0).getD 0 z4 = pendSmall.state env0 ∧
     (cartSmall.solve env0).y = some [z6, z6] ∧
     ([z6, z6] : List State6).length = (⌈cartSmall.t_stop / cartSmall.dt⌉).toNat ∧
     ([z6, z6] : List State6).getD 0 z6 = cartSmall.state env0) :=
  ⟨by rw [show pendSmall.t_stop = 3/10 from rfl]; norm_num,
   by rw [show pendSmall.dt = 1/10 from rfl]; norm_num,
   cartSmall_run,
   by rw [show cartSmall.t_stop = 1/5 from rfl]; norm_num,
   by rw [show cartSmall.dt = 1/10 from rfl]; norm_num,
   solve_row_count_C1 env0 pendSmall cartSmall [z6, z6]
     (by rw [show pendSmall.t_stop = 3/10 from rfl]; norm_num)
     (by rw [show pendSmall.dt = 1/10 from rfl]; norm_num)
     cartSmall_run
     (by rw [show cartSmall.t_stop = 1/5 from rfl]; norm_num)
     (by rw [show cartSmall.dt = 1/10 from rfl]; norm_num)⟩

/-! Claim C2 -/

/-- C2: the pendulum integrator is explicit Euler stepping: for every
`i` in `1..N-1`, row `i` of the stored trajectory equals row `i-1` plus
`dt` times the pendulum derivative evaluator applied to row `i-1`. -/
theorem pend_euler_step_C2 (e : NumEnv) (p : DoublePendulum) (i : ℕ)
    (h1 : 1 ≤ i) (h2 : i < p.N) :
    (p.solveTraj e).getD i z4
      = ((p.solveTraj e).getD (i-1) z4).euler p.dt
          (p.derivs e ((p.solveTraj e).getD (i-1) z4)) := by
  obtain ⟨j, rfl⟩ : ∃ j, i = j + 1 := ⟨i - 1, by omega⟩
  have hj : j < p.N := by omega
  simp only [DoublePendulum.solveTraj, Nat.add_sub_cancel]
  rw [getD_map_range z4 _ _ _ h2, getD_map_range z4 _ _ _ hj]
  rfl

/-- C2 witness: the Euler step relation at row 1 of a 3-row run. -/
theorem pend_euler_step_C2_witness :
    1 ≤ 1 ∧ 1 < pendSmall.N ∧
    (pendSmall.solveTraj env0).getD 1 z4
      = ((pendSmall.solveTraj env0).getD 0 z4).euler pendSmall.dt
          (pendSmall.derivs env0 ((pendSmall.solveTraj env0).getD 0 z4)) :=
  ⟨le_refl 1, by rw [pendSmall_N]; norm_num,
   pend_euler_step_C2 env0 pendSmall 1 (le_refl 1) (by rw [pendSmall_N]; norm_num)⟩

/-! Claim C3 -/

/-- C3: on every 4-element state and every parameter set, the pendulum
derivative evaluator of the source computes exactly the specification's
formulas: `(w1, num1/den1, w2, num2/den2)` with `δ = th2 − th1`,
`den1 = (M1+M2)·L1 − M2·L1·cos²δ` and `den2 = (L2/L1)·den1`. -/
theorem pend_derivs_formula_C3 (e : NumEnv) (p : DoublePendulum) (s : State4) :
    p.derivs e s = derivsSpec e p.L1 p.L2 p.M1 p.M2 p.G s := rfl

/-! Claim C4 -/

/-- C4 counterexample: with `dt = 1` and force sequence `[10, 20, 30]`,
the evaluator called at `t = 8/5` uses `int(t/dt) = 1` (force 20), while
the claimed index `round(t/dt) = 2` would give force 30; the results
differ, so the evaluator does not retrieve the force at index
`round(t/dt)` for every time value passed to it. -/
theorem cart_force_lookup_C4_counterexample :
    cartLookup.derivs env0 z6 (8/5) = some ⟨0, 20, 0, 20, 0, 20⟩ ∧
    derivsRoundSpec env0 cartLookup z6 (8/5) = some ⟨0, 30, 0, 30, 0, 30⟩ ∧
    cartLookup.derivs env0 z6 (8/5) ≠ derivsRoundSpec env0 cartLookup z6 (8/5) := by
  have hcf : cartLookup.control_force = [10, 20, 30] := rfl
  have h1 : pyInt ((8:ℚ)/5 * 1 / cartLookup.dt) = ((1:ℕ) : ℤ) := by
    rw [show cartLookup.dt = 1 from rfl,
      show ((8:ℚ)/5 * 1 / 1) = 8/5 from by norm_num]
    exact pyInt_eq_nat _ 1 (by norm_num) (by norm_num)
  have h2 : specRound ((8:ℚ)/5 / cartLookup.dt) = ((2:ℕ) : ℤ) := by
    rw [show cartLookup.dt = 1 from rfl, show ((8:ℚ)/5/1) = 8/5 from by norm_num,
      specRound, show (8:ℚ)/5 + 1/2 = 21/10 from by norm_num]
    norm_num
  have hl1 : npGet cartLookup.control_force (pyInt ((8:ℚ)/5 * 1 / cartLookup.dt))
      = some 20 := by
    rw [h1, hcf, npGet_nat]
    rfl
  have hl2 : npGet cartLookup.control_force (specRound ((8:ℚ)/5 / cartLookup.dt))
      = some 30 := by
    rw [h2, hcf, npGet_nat]
    rfl
  have ha : cartLookup.derivs env0 z6 (8/5) = some ⟨0, 20, 0, 20, 0, 20⟩ := by
    rw [DoublePendulumOnCart.derivs, hl1, Option.map_some']
    refine congrArg some ?_
    norm_num [DoublePendulumOnCart.derivsF, env0, z6,
      show cartLookup.M1 = 1 from rfl, show cartLookup.M2 = 1 from rfl,
      show cartLookup.Mc = 1 from rfl, show cartLookup.L1 = 1 from rfl,
      show cartLookup.L2 = 1 from rfl, show cartLookup.G = 49/5 from rfl]
  have hb : derivsRoundSpec env0 cartLookup z6 (8/5) = some ⟨0, 30, 0, 30, 0, 30⟩ := by
    rw [derivsRoundSpec, hl2, Option.map_some']
    refine congrArg some ?_
    norm_num [DoublePendulumOnCart.derivsF, env0, z6,
      show cartLookup.M1 = 1 from rfl, show cartLookup.M2 = 1 from rfl,
      show cartLookup.Mc = 1 from rfl, show cartLookup.L1 = 1 from rfl,
      show cartLookup.L2 = 1 from rfl, show cartLookup.G = 49/5 from rfl]
  refine ⟨ha, hb, ?_⟩
  rw [ha, hb]
  simp only [ne_eq, Option.some.injEq, State6.mk.injEq]
  norm_num

/-- C4 (amended): the cart derivative evaluator retrieves the control
force at index `int(t/dt)` — truncation, not rounding; for the grid
instants `t = i·dt` actually passed by `solve` the two agree, both giving
exactly `i`; and the evaluator faults (returns `none`) exactly when that
index is outside the force sequence's range, at the point of lookup. -/
theorem cart_force_lookup_C4 (e : NumEnv) (p : DoublePendulumOnCart)
    (s : State6) (t : ℚ) (i : ℕ) (hdt : p.dt ≠ 0) :
    (p.derivs e s t = none ↔
      npGet p.control_force (pyInt (t * 1 / p.dt)) = none) ∧
    pyInt ((i : ℚ) * p.dt * 1 / p.dt) = (i : ℤ) ∧
    specRound ((i : ℚ) * p.dt / p.dt) = (i : ℤ) := by
  refine ⟨?_, ?_, ?_⟩
  · rw [DoublePendulumOnCart.derivs]
    cases npGet p.control_force (pyInt (t * 1 / p.dt)) <;> simp
  · rw [mul_one, mul_div_assoc, div_self hdt, mul_one]
    exact pyInt_natCast i
  · rw [mul_div_assoc, div_self hdt, mul_one]
    exact specRound_natCast i

/-- C4 witness: the amended statement instantiated on the concrete
`[10, 20, 30]` cart at `t = 7`, step index 2. -/
theorem cart_force_lookup_C4_witness :
    cartLookup.dt ≠ 0 ∧
    ((cartLookup.derivs env0 z6 7 = none ↔
        npGet cartLookup.control_force (pyInt (7 * 1 / cartLookup.dt)) = none) ∧
      pyInt (((2:ℕ) : ℚ) * cartLookup.dt * 1 / cartLookup.dt) = ((2:ℕ) : ℤ) ∧
      specRound (((2:ℕ) : ℚ) * cartLookup.dt / cartLookup.dt) = ((2:ℕ) : ℤ)) :=
  ⟨by rw [show cartLookup.dt = 1 from rfl]; norm_num,
   cart_force_lookup_C4 env0 cartLookup z6 7 2
     (by rw [show cartLookup.dt = 1 from rfl]; norm_num)⟩

/-! Claim C5 -/

/-- The clamp never changes the angular components of a state. -/
theorem clamp_preserves_angles (p : DoublePendulumOnCart) (s : State6) :
    (p.clamp s).th1 = s.th1 ∧ (p.clamp s).w1 = s.w1 ∧
    (p.clamp s).th2 = s.th2 ∧ (p.clamp s).w2 = s.w2 := by
  unfold DoublePendulumOnCart.clamp
  split_ifs <;> simp

/-- After the clamp, the cart position lies in `[x_min, x_max]`
(whenever those bounds are ordered). -/
theorem clamp_x_bounds (p : DoublePendulumOnCart) (hx : p.x_min ≤ p.x_max)
    (s : State6) :
    p.x_min ≤ (p.clamp s).x ∧ (p.clamp s).x ≤ p.x_max := by
  unfold DoublePendulumOnCart.clamp
  split_ifs with h1 h2
  · exact ⟨le_rfl, hx⟩
  · exact ⟨hx, le_rfl⟩
  · constructor <;> [linarith; linarith]

/-- C5: in every successful cart run with `x_min < x_max`, each row
`i ≥ 1` is the clamp applied once to the Euler update of row `i-1`
(computed with the derivative at row `i-1` and `t[i-1] = (i-1)·dt`); the
clamp leaves the four angular components of the Euler update untouched;
and consequently the stored cart position satisfies
`x_min ≤ x ≤ x_max`. -/
theorem cart_clamp_step_C5 (e : NumEnv) (p : DoublePendulumOnCart)
    (hx : p.x_min < p.x_max) (tr : List State6)
    (htr : p.solveRun e = some tr) (i : ℕ) (h1 : 1 ≤ i) (h2 : i < p.N) :
    (∃ d : State6,
      p.derivs e (tr.getD (i-1) z6) (((i-1 : ℕ) : ℚ) * p.dt) = some d ∧
      tr.getD i z6 = p.clamp ((tr.getD (i-1) z6).euler p.dt d) ∧
      (p.clamp ((tr.getD (i-1) z6).euler p.dt d)).th1
        = ((tr.getD (i-1) z6).euler p.dt d).th1 ∧
      (p.clamp ((tr.getD (i-1) z6).euler p.dt d)).w1
        = ((tr.getD (i-1) z6).euler p.dt d).w1 ∧
      (p.clamp ((tr.getD (i-1) z6).euler p.dt d)).th2
        = ((tr.getD (i-1) z6).euler p.dt d).th2 ∧
      (p.clamp ((tr.getD (i-1) z6).euler p.dt d)).w2
        = ((tr.getD (i-1) z6).euler p.dt d).w2) ∧
    p.x_min ≤ (tr.getD i z6).x ∧ (tr.getD i z6).x ≤ p.x_max := by
  obtain ⟨hlen, hrow⟩ := p.solveRun_getD e htr
  obtain ⟨j, rfl⟩ : ∃ j, i = j + 1 := ⟨i - 1, by omega⟩
  have hj : j < p.N := by omega
  have hprev := hrow j hj
  have hcur := hrow (j+1) h2
  rw [trajAux6_succ, hprev, Option.some_bind] at hcur
  simp only [Nat.add_sub_cancel]
  cases hd : p.derivs e (tr.getD j z6) ((j : ℚ) * p.dt) with
  | none => rw [hd] at hcur; simp at hcur
  | some d =>
    rw [hd, Option.map_some'] at hcur
    have hcur' : tr.getD (j+1) z6 = p.clamp ((tr.getD j z6).euler p.dt d) :=
      (Option.some_injective _ hcur).symm
    obtain ⟨ha1, ha2, ha3, ha4⟩ :=
      clamp_preserves_angles p ((tr.getD j z6).euler p.dt d)
    obtain ⟨hb1, hb2⟩ := clamp_x_bounds p hx.le ((tr.getD j z6).euler p.dt d)
    refine ⟨⟨d, rfl, hcur', ha1, ha2, ha3, ha4⟩, ?_, ?_⟩
    · rw [hcur']; exact hb1
    · rw [hcur']; exact hb2

/-- C5 witness: the clamped-Euler step relation at row 1 of the
successful 2-row cart run. -/
theorem cart_clamp_step_C5_witness :
    cartSmall.x_min < cartSmall.x_max ∧
    cartSmall.solveRun env0 = some [z6, z6] ∧
    (1:ℕ) ≤ 1 ∧ 1 < cartSmall.N ∧
    ((∃ d : State6,
        cartSmall.derivs env0 z6 (((0:ℕ) : ℚ) * cartSmall.dt) = some d ∧
        z6 = cartSmall.clamp (z6.euler cartSmall.dt d) ∧
        (cartSmall.clamp (z6.euler cartSmall.dt d)).th1
          = (z6.euler cartSmall.dt d).th1 ∧
        (cartSmall.clamp (z6.euler cartSmall.dt d)).w1
          = (z6.euler cartSmall.dt d).w1 ∧
        (cartSmall.clamp (z6.euler cartSmall.dt d)).th2
          = (z6.euler cartSmall.dt d).th2 ∧
        (cartSmall.clamp (z6.euler cartSmall.dt d)).w2
          = (z6.euler cartSmall.dt d).w2) ∧
      cartSmall.x_min ≤ z6.x ∧ z6.x ≤ cartSmall.x_max) :=
  ⟨by rw [show cartSmall.x_min = -1 from rfl, show cartSmall.x_max = 1 from rfl]
      norm_num,
   cartSmall_run, le_refl 1, by rw [cartSmall_N]; norm_num,
   cart_clamp_step_C5 env0 cartSmall
     (by rw [show cartSmall.x_min = -1 from rfl, show cartSmall.x_max = 1 from rfl]
         norm_num)
     [z6, z6] cartSmall_run 1 (le_refl 1) (by rw [cartSmall_N]; norm_num)⟩

/-! Claim C6 -/

/-- Row 1 of the clamp-scenario run. -/
def cc1 : State6 := ⟨0, 1, 0, 1, 0, 1⟩

/-- Row 2 of the clamp-scenario run (cart exactly at `x_max`, unclamped). -/
def cc2 : State6 := ⟨1/10, 19/10, 1/10, 19/10, 1/10, 29/15⟩

/-- Row 3 of the clamp-scenario run: the Euler update overshot `x_max`,
so the clamp set `x = x_max` and `vx = 0`. -/
def cc3 : State6 := ⟨29/100, 203/75, 29/100, 203/75, 1/10, 0⟩

/-- Row 4 of the clamp-scenario run: `x` stays at `x_max` (no clamp this
step) while the force re-accelerates the cart to `vx = 1 ≠ 0`. -/
def cc4 : State6 := ⟨841/1500, 278/75, 841/1500, 278/75, 1/10, 1⟩

/-- The full 5-row trajectory of the clamp scenario. -/
def ccTraj : List State6 := [z6, cc1, cc2, cc3, cc4]

/-- The pre-clamp Euler update feeding row `i` of the clamp scenario. -/
def ccPre (i : ℕ) : State6 :=
  (ccTraj.getD (i-1) z6).euler cartClamp.dt
    ((cartClamp.derivs env0 (ccTraj.getD (i-1) z6)
        (((i-1 : ℕ) : ℚ) * cartClamp.dt)).getD z6)

/-- The clamp scenario's grid has 5 instants. -/
theorem cartClamp_N : cartClamp.N = 5 := by
  rw [DoublePendulumOnCart.N, show cartClamp.t_stop = 1/2 from rfl,
    show cartClamp.dt = 1/10 from rfl]
  exact arangeLen_eq _ _ 5 (by norm_num) (by norm_num)

/-- Every force lookup of the clamp scenario returns the constant 10. -/
theorem cartClamp_lookup (i : ℕ) (hi : i < 5) :
    npGet cartClamp.control_force
      (pyInt (((i:ℕ) : ℚ) * cartClamp.dt * 1 / cartClamp.dt)) = some 10 := by
  have hidx : pyInt ((i:ℚ) * cartClamp.dt * 1 / cartClamp.dt) = (i : ℤ) := by
    rw [show cartClamp.dt = 1/10 from rfl,
      show ((i:ℚ) * (1/10) * 1 / (1/10)) = (i:ℚ) from by ring]
    exact pyInt_natCast i
  rw [hidx, show cartClamp.control_force = [10, 10, 10, 10, 10] from rfl, npGet_nat]
  interval_cases i <;> rfl

/-- The clamp scenario's derivative evaluator, in closed form: with
`sin ≡ 0`, `cos ≡ 1`, unit masses and `F = 10` it reduces to
`(w1, 10 − vx, w2, 10 − vx, vx, (30 − 2·vx)/3)`. -/
theorem cartClamp_derivs (s : State6) (i : ℕ) (hi : i < 5) :
    cartClamp.derivs env0 s (((i:ℕ) : ℚ) * cartClamp.dt)
      = some ⟨s.w1, 10 - s.vx, s.w2, 10 - s.vx, s.vx, (30 - 2 * s.vx) / 3⟩ := by
  rw [DoublePendulumOnCart.derivs, cartClamp_lookup i hi, Option.map_some']
  refine congrArg some ?_
  obtain ⟨a, b, c, d, x, v⟩ := s
  simp only [DoublePendulumOnCart.derivsF, env0,
    show cartClamp.M1 = 1 from rfl, show cartClamp.M2 = 1 from rfl,
    show cartClamp.Mc = 1 from rfl, show cartClamp.L1 = 1 from rfl,
    show cartClamp.L2 = 1 from rfl, show cartClamp.G = 49/5 from rfl]
  rw [State6.mk.injEq]
  refine ⟨by ring, by ring, by ring, by ring, by ring, by ring⟩

/-- The clamp scenario's initial state is zero. -/
theorem cartClamp_state : cartClamp.state env0 = z6 := by
  norm_num [DoublePendulumOnCart.state, NumEnv.radians, env0, z6,
    show cartClamp.th1 = 0 from rfl, show cartClamp.w1 = 0 from rfl,
    show cartClamp.th2 = 0 from rfl, show cartClamp.w2 = 0 from rfl,
    show cartClamp.x = 0 from rfl, show cartClamp.vx = 0 from rfl]

/-- Row 1 of the clamp scenario. -/
theorem cartClamp_row1 : cartClamp.trajAux env0 1 = some cc1 := by
  rw [show (1:ℕ) = 0 + 1 from rfl, trajAux6_succ, trajAux6_zero, cartClamp_state,
    Option.some_bind, cartClamp_derivs z6 0 (by norm_num), Option.map_some']
  refine congrArg some ?_
  norm_num [State6.euler, DoublePendulumOnCart.clamp, z6, cc1,
    show cartClamp.dt = 1/10 from rfl, show cartClamp.x_min = -1/10 from rfl,
    show cartClamp.x_max = 1/10 from rfl]

/-- Row 2 of the clamp scenario. -/
theorem cartClamp_row2 : cartClamp.trajAux env0 2 = some cc2 := by
  rw [show (2:ℕ) = 1 + 1 from rfl, trajAux6_succ, cartClamp_row1,
    Option.some_bind, cartClamp_derivs cc1 1 (by norm_num), Option.map_some']
  refine congrArg some ?_
  norm_num [State6.euler, DoublePendulumOnCart.clamp, cc1, cc2,
    show cartClamp.dt = 1/10 from rfl, show cartClamp.x_min = -1/10 from rfl,
    show cartClamp.x_max = 1/10 from rfl]

/-- Row 3 of the clamp scenario: this step engages the clamp. -/
theorem cartClamp_row3 : cartClamp.trajAux env0 3 = some cc3 := by
  rw [show (3:ℕ) = 2 + 1 from rfl, trajAux6_succ, cartClamp_row2,
    Option.some_bind, cartClamp_derivs cc2 2 (by norm_num), Option.map_some']
  refine congrArg some ?_
  norm_num [State6.euler, DoublePendulumOnCart.clamp, cc2, cc3,
    show cartClamp.dt = 1/10 from rfl, show cartClamp.x_min = -1/10 from rfl,
    show cartClamp.x_max = 1/10 from rfl]

/-- Row 4 of the clamp scenario: no clamp, `vx` grows back to 1. -/
theorem cartClamp_row4 : cartClamp.trajAux env0 4 = some cc4 := by
  rw [show (4:ℕ) = 3 + 1 from rfl, trajAux6_succ, cartClamp_row3,
    Option.some_bind, cartClamp_derivs cc3 3 (by norm_num), Option.map_some']
  refine congrArg some ?_
  norm_num [State6.euler, DoublePendulumOnCart.clamp, cc3, cc4,
    show cartClamp.dt = 1/10 from rfl, show cartClamp.x_min = -1/10 from rfl,
    show cartClamp.x_max = 1/10 from rfl]

/-- The full clamp-scenario run. -/
theorem cartClamp_run : cartClamp.solveRun env0 = some ccTraj := by
  rw [DoublePendulumOnCart.solveRun, cartClamp_N,
    show List.range 5 = [0, 1, 2, 3, 4] from rfl]
  simp [optSeq, trajAux6_zero, cartClamp_state, cartClamp_row1, cartClamp_row2,
    cartClamp_row3, cartClamp_row4, ccTraj]

/-- The pre-clamp Euler update at step 1 keeps `x = 0`. -/
theorem ccPre1_x : (ccPre 1).x = 0 := by
  rw [show ccPre 1 = z6.euler cartClamp.dt
      ((cartClamp.derivs env0 z6 (((0:ℕ) : ℚ) * cartClamp.dt)).getD z6) from rfl,
    cartClamp_derivs z6 0 (by norm_num), Option.getD_some]
  norm_num [State6.euler, z6, show cartClamp.dt = 1/10 from rfl]

/-- The pre-clamp Euler update at step 2 reaches `x = 1/10` exactly. -/
theorem ccPre2_x : (ccPre 2).x = 1/10 := by
  rw [show ccPre 2 = cc1.euler cartClamp.dt
      ((cartClamp.derivs env0 cc1 (((1:ℕ) : ℚ) * cartClamp.dt)).getD z6) from rfl,
    cartClamp_derivs cc1 1 (by norm_num), Option.getD_some]
  norm_num [State6.euler, cc1, show cartClamp.dt = 1/10 from rfl]

/-- The pre-clamp Euler update at step 3 in full: `x = 22/75` has
overshot `x_max = 1/10`. -/
theorem ccPre3_eval : ccPre 3 = ⟨29/100, 203/75, 29/100, 203/75, 22/75, 631/225⟩ := by
  rw [show ccPre 3 = cc2.euler cartClamp.dt
      ((cartClamp.derivs env0 cc2 (((2:ℕ) : ℚ) * cartClamp.dt)).getD z6) from rfl,
    cartClamp_derivs cc2 2 (by norm_num), Option.getD_some]
  norm_num [State6.euler, cc2, show cartClamp.dt = 1/10 from rfl]

/-- Clamping the overshot step-3 update yields exactly row 3. -/
theorem ccPre3_clamp : cartClamp.clamp (ccPre 3) = cc3 := by
  rw [ccPre3_eval]
  norm_num [DoublePendulumOnCart.clamp, cc3,
    show cartClamp.x_min = -1/10 from rfl, show cartClamp.x_max = 1/10 from rfl]

/-- C6 counterexample: in the §8 clamp scenario (`x_min = -1/10`,
`x_max = 1/10`, constant force 10 driving the cart past `x_max` at step
3), clamping first engages at row 3 (steps 1 and 2 stay within bounds)
and row 3 has `vx = 0`, but the very next row has `vx = 1 ≠ 0`: `vx` is
not exactly 0 in every row after clamping engaged, because the clamped
row re-enters the Euler update with `x = x_max` (not beyond it), so the
next step is not clamped and the force re-accelerates the cart. -/
theorem cart_clamp_scenario_C6_counterexample :
    cartClamp.x_min = -1/10 ∧ cartClamp.x_max = 1/10 ∧
    cartClamp.solveRun env0 = some ccTraj ∧
    cartClamp.x_min ≤ (ccPre 1).x ∧ (ccPre 1).x ≤ cartClamp.x_max ∧
    cartClamp.x_min ≤ (ccPre 2).x ∧ (ccPre 2).x ≤ cartClamp.x_max ∧
    (ccPre 3).x > cartClamp.x_max ∧
    ccTraj.getD 3 z6 = cartClamp.clamp (ccPre 3) ∧
    (ccTraj.getD 3 z6).vx = 0 ∧
    (ccTraj.getD 4 z6).vx = 1 ∧ (1:ℚ) ≠ 0 := by
  refine ⟨rfl, rfl, cartClamp_run, ?_, ?_, ?_, ?_, ?_, ?_, ?_, ?_, by norm_num⟩
  · rw [ccPre1_x, show cartClamp.x_min = -1/10 from rfl]; norm_num
  · rw [ccPre1_x, show cartClamp.x_max = 1/10 from rfl]; norm_num
  · rw [ccPre2_x, show cartClamp.x_min = -1/10 from rfl]; norm_num
  · rw [ccPre2_x, show cartClamp.x_max = 1/10 from rfl]
  · rw [ccPre3_eval, show cartClamp.x_max = 1/10 from rfl]; norm_num
  · rw [show ccTraj.getD 3 z6 = cc3 from rfl, ccPre3_clamp]
  · rw [show ccTraj.getD 3 z6 = cc3 from rfl, show cc3.vx = 0 from rfl]
  · rw [show ccTraj.getD 4 z6 = cc4 from rfl, show cc4.vx = 1 from rfl]

/-- C6 (amended): in the §8 clamp scenario no trajectory row's `x`
exceeds `x_max`, and `vx` is exactly 0 in every row in which the clamp
engaged (here row 3, the only clamped row: its Euler update overshot
`x_max`); rows after a clamped row need not keep `vx = 0`. -/
theorem cart_clamp_scenario_C6 :
    cartClamp.solveRun env0 = some ccTraj ∧
    (ccTraj.getD 0 z6).x ≤ cartClamp.x_max ∧
    (ccTraj.getD 1 z6).x ≤ cartClamp.x_max ∧
    (ccTraj.getD 2 z6).x ≤ cartClamp.x_max ∧
    (ccTraj.getD 3 z6).x ≤ cartClamp.x_max ∧
    (ccTraj.getD 4 z6).x ≤ cartClamp.x_max ∧
    (ccPre 3).x > cartClamp.x_max ∧
    ccTraj.getD 3 z6 = cartClamp.clamp (ccPre 3) ∧
    (ccTraj.getD 3 z6).vx = 0 := by
  refine ⟨cartClamp_run, ?_, ?_, ?_, ?_, ?_, ?_, ?_, ?_⟩
  · rw [show (ccTraj.getD 0 z6).x = z6.x from rfl, show z6.x = 0 from rfl,
      show cartClamp.x_max = 1/10 from rfl]
    norm_num
  · rw [show (ccTraj.getD 1 z6).x = cc1.x from rfl, show cc1.x = 0 from rfl,
      show cartClamp.x_max = 1/10 from rfl]
    norm_num
  · rw [show (ccTraj.getD 2 z6).x = cc2.x from rfl, show cc2.x = 1/10 from rfl,
      show cartClamp.x_max = 1/10 from rfl]
  · rw [show (ccTraj.getD 3 z6).x = cc3.x from rfl, show cc3.x = 1/10 from rfl,
      show cartClamp.x_max = 1/10 from rfl]
  · rw [show (ccTraj.getD 4 z6).x = cc4.x from rfl, show cc4.x = 1/10 from rfl,
      show cartClamp.x_max = 1/10 from rfl]
  · rw [ccPre3_eval, show cartClamp.x_max = 1/10 from rfl]; norm_num
  · rw [show ccTraj.getD 3 z6 = cc3 from rfl, ccPre3_clamp]
  · rw [show ccTraj.getD 3 z6 = cc3 from rfl, show cc3.vx = 0 from rfl]

/-! Claim C7 -/

/-- C7 counterexample: constructing a cart with the valid parameters
`t_stop = 5 > 0`, `dt = 2 > 0` yields a default control-force sequence
of `int(5/2) = 2` entries but a time grid of `ceil(5/2) = 3` instants:
the lengths already disagree right after construction. -/
theorem cart_force_length_C7_counterexample :
    0 < cartRagged.t_stop ∧ 0 < cartRagged.dt ∧
    cartRagged.control_force.length = 2 ∧
    (arange cartRagged.t_stop cartRagged.dt).length = 3 ∧ (2:ℕ) ≠ 3 := by
  refine ⟨?_, ?_, ?_, ?_, by norm_num⟩
  · rw [show cartRagged.t_stop = 5 from rfl]; norm_num
  · rw [show cartRagged.dt = 2 from rfl]; norm_num
  · show (List.replicate (pyInt ((5:ℚ) * 1 / 2)).toNat 0).length = 2
    rw [show (5:ℚ) * 1 / 2 = 5/2 from by norm_num,
      pyInt_eq_nat _ 2 (by norm_num) (by norm_num), Int.toNat_natCast,
      List.length_replicate]
  · rw [show (arange cartRagged.t_stop cartRagged.dt).length
        = arangeLen cartRagged.t_stop cartRagged.dt from by
          rw [arange, List.length_map, List.length_range],
      show cartRagged.t_stop = 5 from rfl, show cartRagged.dt = 2 from rfl]
    exact arangeLen_eq _ _ 3 (by norm_num) (by norm_num)

/-- C7 (amended): after construction the control-force sequence has
`int(t_stop/dt)` entries and the time grid `ceil(t_stop/dt)`; they
coincide whenever `t_stop` is an exact multiple of `dt` (in particular
in every default configuration), but not in general. The setters do not
maintain the invariant: `set_time_parameters` rebuilds the grid while
leaving the force sequence untouched, and `set_control_force` installs
whatever sequence the caller supplies, so length agreement before
`solve` is the caller's responsibility. -/
theorem cart_force_length_C7 (t1 d1 : ℚ) (k : ℕ) (p : DoublePendulumOnCart)
    (cf : List ℚ) (t2 d2 : ℚ) (hd : 0 < d1) (hk : t1 = (k : ℚ) * d1) :
    (∀ L1 L2 M1 M2 Mc G xa xb fa fb th1 w1 th2 w2 x vx : ℚ,
      (DoublePendulumOnCart.init L1 L2 M1 M2 Mc G xa xb fa fb
          th1 w1 th2 w2 x vx t1 d1).control_force.length
        = (DoublePendulumOnCart.init L1 L2 M1 M2 Mc G xa xb fa fb
            th1 w1 th2 w2 x vx t1 d1).N) ∧
    (p.set_time_parameters t2 d2).control_force = p.control_force ∧
    (p.set_control_force cf).control_force = cf := by
  refine ⟨?_, rfl, rfl⟩
  intro L1 L2 M1 M2 Mc G xa xb fa fb th1 w1 th2 w2 x vx
  have hratio : t1 / d1 = (k : ℚ) := by
    rw [hk, mul_div_assoc, div_self (ne_of_gt hd), mul_one]
  show (List.replicate (pyInt (t1 * 1 / d1)).toNat 0).length = arangeLen t1 d1
  rw [List.length_replicate, mul_one, hratio, pyInt_natCast, Int.toNat_natCast,
    arangeLen, hratio, Int.ceil_natCast, Int.toNat_natCast]

/-- C7 witness: the amended statement instantiated at `t_stop = 1/5`,
`dt = 1/10` (an exact multiple, `k = 2`) and concrete setter calls. -/
theorem cart_force_length_C7_witness :
    0 < (1/10 : ℚ) ∧ (1/5 : ℚ) = ((2:ℕ) : ℚ) * (1/10) ∧
    ((∀ L1 L2 M1 M2 Mc G xa xb fa fb th1 w1 th2 w2 x vx : ℚ,
        (DoublePendulumOnCart.init L1 L2 M1 M2 Mc G xa xb fa fb
            th1 w1 th2 w2 x vx (1/5) (1/10)).control_force.length
          = (DoublePendulumOnCart.init L1 L2 M1 M2 Mc G xa xb fa fb
              th1 w1 th2 w2 x vx (1/5) (1/10)).N) ∧
      (cartSmall.set_time_parameters 1 1).control_force = cartSmall.control_force ∧
      (cartSmall.set_control_force [1]).control_force = [1]) :=
  ⟨by norm_num, by push_cast; norm_num,
   cart_force_length_C7 (1/5) (1/10) 2 cartSmall [1] 1 1 (by norm_num)
     (by push_cast; norm_num)⟩

/-! Claim C8 -/

/-- C8 counterexample: with `t_stop = 3`, `dt = 3/5`, the generated
staircase replicates each of the 3 drawn values `int(1/dt) = 1` time
(sequence length 3), not `round(1/dt) = 2` times (which would give
length 6): the replication count is truncation, not rounding. -/
theorem staircase_C8_counterexample :
    (cartStair.set_random_control_force (-10) 10
        (fun k => (k : ℚ))).control_force.length = 3 ∧
    specRound (1 / cartStair.dt) = 2 ∧
    (pyInt cartStair.t_stop).toNat * (specRound (1 / cartStair.dt)).toNat = 6 ∧
    (3:ℕ) ≠ 6 := by
  have h1 : pyInt cartStair.t_stop = ((3:ℕ) : ℤ) := by
    rw [show cartStair.t_stop = 3 from rfl]
    exact_mod_cast pyInt_natCast 3
  have h2 : pyInt (1 / cartStair.dt) = ((1:ℕ) : ℤ) := by
    rw [show cartStair.dt = 3/5 from rfl, show (1:ℚ)/(3/5) = 5/3 from by norm_num]
    exact pyInt_eq_nat _ 1 (by norm_num) (by norm_num)
  have h3 : specRound (1 / cartStair.dt) = 2 := by
    rw [show cartStair.dt = 3/5 from rfl, show (1:ℚ)/(3/5) = 5/3 from by norm_num,
      specRound, show (5:ℚ)/3 + 1/2 = 13/6 from by norm_num]
    norm_num
  refine ⟨?_, h3, ?_, by norm_num⟩
  · simp only [DoublePendulumOnCart.set_random_control_force]
    rw [length_flatMap_replicate, List.length_map, List.length_range, h1, h2,
      Int.toNat_natCast, Int.toNat_natCast]
  · rw [h1, h3, Int.toNat_natCast]
    rfl

/-- C8 (amended): `set_random_control_force` draws `int(t_stop)` values
(one per whole second) and replicates each `int(1/dt)` times — truncation
rather than rounding — consecutively (`np.repeat`); its length is the
product of the two counts. In particular, for `t_stop = 3`, `dt = 1/100`
the sequence is three blocks of 100 identical samples, length 300. -/
theorem staircase_C8 (p : DoublePendulumOnCart) (fmin fmax : ℚ)
    (draws : ℕ → ℚ) :
    (p.set_random_control_force fmin fmax draws).control_force
      = ((List.range (pyInt p.t_stop).toNat).map draws).flatMap
          (fun v => List.replicate (pyInt (1 / p.dt)).toNat v) ∧
    (p.set_random_control_force fmin fmax draws).control_force.length
      = (pyInt p.t_stop).toNat * (pyInt (1 / p.dt)).toNat ∧
    (cartStair3.set_random_control_force fmin fmax draws).control_force
      = List.replicate 100 (draws 0)
          ++ (List.replicate 100 (draws 1) ++ List.replicate 100 (draws 2)) ∧
    (cartStair3.set_random_control_force fmin fmax draws).control_force.length
      = 300 := by
  have ha : pyInt cartStair3.t_stop = ((3:ℕ) : ℤ) := by
    rw [show cartStair3.t_stop = 3 from rfl]
    exact_mod_cast pyInt_natCast 3
  have hb : pyInt (1 / cartStair3.dt) = ((100:ℕ) : ℤ) := by
    rw [show cartStair3.dt = 1/100 from rfl,
      show (1:ℚ)/(1/100) = ((100:ℕ) : ℚ) from by push_cast; norm_num]
    exact pyInt_natCast 100
  have hc : (cartStair3.set_random_control_force fmin fmax draws).control_force
      = List.replicate 100 (draws 0)
          ++ (List.replicate 100 (draws 1) ++ List.replicate 100 (draws 2)) := by
    simp only [DoublePendulumOnCart.set_random_control_force, ha, hb,
      Int.toNat_natCast, show List.range 3 = [0, 1, 2] from rfl,
      show ([0, 1, 2] : List ℕ).map draws = [draws 0, draws 1, draws 2] from rfl]
    rw [List.flatMap_cons, List.flatMap_cons, List.flatMap_cons,
      List.flatMap_nil, List.append_nil]
  refine ⟨rfl, ?_, hc, ?_⟩
  · simp only [DoublePendulumOnCart.set_random_control_force]
    rw [length_flatMap_replicate, List.length_map, List.length_range]
  · rw [hc]
    simp only [List.length_append, List.length_replicate]

/-! Claim C9 -/

/-- The cart's grid length in the faulting fixture. -/
theorem cartFault_N : cartFault.N = 2 := by
  rw [DoublePendulumOnCart.N, show cartFault.t_stop = 1/5 from rfl,
    show cartFault.dt = 1/10 from rfl]
  exact arangeLen_eq _ _ 2 (by norm_num) (by norm_num)

/-- The faulting cart run: the very first force lookup on the empty
sequence raises, so the whole run aborts. -/
theorem cartFault_run : cartFault.solveRun env0 = none := by
  have hlook : npGet cartFault.control_force
      (pyInt (((0:ℕ) : ℚ) * cartFault.dt * 1 / cartFault.dt)) = none := by
    rw [show cartFault.control_force = [] from rfl]
    simp [npGet]
  have hd : cartFault.derivs env0 (cartFault.state env0)
      (((0:ℕ) : ℚ) * cartFault.dt) = none := by
    rw [DoublePendulumOnCart.derivs, hlook]
    rfl
  have h1 : cartFault.trajAux env0 1 = none := by
    rw [show (1:ℕ) = 0 + 1 from rfl, trajAux6_succ, trajAux6_zero,
      Option.some_bind, hd]
    rfl
  rw [DoublePendulumOnCart.solveRun, cartFault_N,
    show List.range 2 = [0, 1] from rfl]
  simp [optSeq, h1]

/-- C9: a fault during the cart's `solve` leaves the container — in
particular the previously stored trajectory — completely unchanged,
because the stored trajectory is replaced only after the full run
succeeded; and on success the freshly computed rows replace it whole. -/
theorem solve_fault_C9 (e : NumEnv) (q : DoublePendulumOnCart) :
    (q.solveRun e = none → q.solve e = q) ∧
    (∀ tr, q.solveRun e = some tr → (q.solve e).y = some tr) := by
  constructor
  · intro h
    simp [DoublePendulumOnCart.solve, h]
  · intro tr h
    simp [DoublePendulumOnCart.solve, h]

/-- C9 witness: the concrete cart whose force sequence was set to `[]`
faults during `solve` and comes out untouched. -/
theorem solve_fault_C9_witness :
    cartFault.solveRun env0 = none ∧ cartFault.solve env0 = cartFault :=
  ⟨cartFault_run, (solve_fault_C9 env0 cartFault).1 cartFault_run⟩

/-! Claim C10 -/

/-- The pendulum loop never reads the stored trajectory field. -/
theorem trajAux4_y (e : NumEnv) (p : DoublePendulum)
    (v : Option (List State4)) (i : ℕ) :
    DoublePendulum.trajAux e { p with y := v } i = p.trajAux e i := by
  induction i with
  | zero => rfl
  | succ j ih =>
    rw [trajAux4_succ, trajAux4_succ, ih]
    rfl

/-- The pendulum trajectory does not depend on the stored trajectory
field. -/
theorem DoublePendulum.solveTraj_y (e : NumEnv) (p : DoublePendulum)
    (v : Option (List State4)) :
    DoublePendulum.solveTraj e { p with y := v } = p.solveTraj e := by
  rw [DoublePendulum.solveTraj, DoublePendulum.solveTraj,
    funext (trajAux4_y e p v)]
  rfl

/-- The cart loop never reads the stored trajectory field. -/
theorem trajAux6_y (e : NumEnv) (p : DoublePendulumOnCart)
    (v : Option (List State6)) (i : ℕ) :
    DoublePendulumOnCart.trajAux e { p with y := v } i = p.trajAux e i := by
  induction i with
  | zero => rfl
  | succ j ih =>
    rw [trajAux6_succ, trajAux6_succ, ih]
    rfl

/-- The cart run does not depend on the stored trajectory field. -/
theorem DoublePendulumOnCart.solveRun_y (e : NumEnv) (p : DoublePendulumOnCart)
    (v : Option (List State6)) :
    DoublePendulumOnCart.solveRun e { p with y := v } = p.solveRun e := by
  rw [DoublePendulumOnCart.solveRun, DoublePendulumOnCart.solveRun,
    funext (trajAux6_y e p v)]
  rfl

/-- C10: on either system `solve` mutates only the stored trajectory
field `y`: every physical parameter, raw initial condition, the derived
converted initial state and grid length, and (for the cart) the
control-force sequence are unchanged; consequently a second `solve` call
recomputes and stores the same trajectory. -/
theorem solve_frame_C10 (e : NumEnv) (p : DoublePendulum)
    (q : DoublePendulumOnCart) :
    ((p.solve e).L1 = p.L1 ∧ (p.solve e).L2 = p.L2 ∧ (p.solve e).M1 = p.M1 ∧
     (p.solve e).M2 = p.M2 ∧ (p.solve e).G = p.G ∧ (p.solve e).th1 = p.th1 ∧
     (p.solve e).w1 = p.w1 ∧ (p.solve e).th2 = p.th2 ∧ (p.solve e).w2 = p.w2 ∧
     (p.solve e).t_stop = p.t_stop ∧ (p.solve e).dt = p.dt ∧
     (p.solve e).state e = p.state e ∧ (p.solve e).N = p.N) ∧
    ((p.solve e).solve e).y = (p.solve e).y ∧
    ((q.solve e).L1 = q.L1 ∧ (q.solve e).L2 = q.L2 ∧ (q.solve e).M1 = q.M1 ∧
     (q.solve e).M2 = q.M2 ∧ (q.solve e).Mc = q.Mc ∧ (q.solve e).G = q.G ∧
     (q.solve e).x_min = q.x_min ∧ (q.solve e).x_max = q.x_max ∧
     (q.solve e).f_min = q.f_min ∧ (q.solve e).f_max = q.f_max ∧
     (q.solve e).th1 = q.th1 ∧ (q.solve e).w1 = q.w1 ∧
     (q.solve e).th2 = q.th2 ∧ (q.solve e).w2 = q.w2 ∧
     (q.solve e).x = q.x ∧ (q.solve e).vx = q.vx ∧
     (q.solve e).t_stop = q.t_stop ∧ (q.solve e).dt = q.dt ∧
     (q.solve e).control_force = q.control_force ∧
     (q.solve e).state e = q.state e ∧ (q.solve e).N = q.N) ∧
    ((q.solve e).solve e).y = (q.solve e).y := by
  refine ⟨⟨rfl, rfl, rfl, rfl, rfl, rfl, rfl, rfl, rfl, rfl, rfl, rfl, rfl⟩,
    ?_, ?_, ?_⟩
  · show some (DoublePendulum.solveTraj e (p.solve e)) = some (p.solveTraj e)
    rw [show p.solve e = { p with y := some (p.solveTraj e) } from rfl,
      DoublePendulum.solveTraj_y]
  · cases h : q.solveRun e with
    | none => simp [DoublePendulumOnCart.solve, h]
    | some tr =>
      simp [DoublePendulumOnCart.solve, h]
      exact ⟨rfl, rfl⟩
  · cases h : q.solveRun e with
    | none =>
      have h1 : q.solve e = q := by simp [DoublePendulumOnCart.solve, h]
      rw [h1, h1]
    | some tr =>
      have h1 : q.solve e = { q with y := some tr } := by
        simp [DoublePendulumOnCart.solve, h]
      have h2 : DoublePendulumOnCart.solveRun e { q with y := some tr }
          = some tr := by
        rw [DoublePendulumOnCart.solveRun_y, h]
      rw [h1]
      simp [DoublePendulumOnCart.solve, h2]
